import Mathlib

/-!
Shallow embedding of the ride-booking conversation engine
(`app/services/conversation_service.py`, `app/services/session_service.py`,
`app/services/google_services.py`, `app/models/schemas.py`) and proofs of the
behavioural claims about it.

Modelling conventions:
- Python `None`-able values become `Option`; Python dict truthiness is made
  explicit (`truthyLoc`, `truthyStr`, `rideIdTruthy`).
- Raising / catching exceptions becomes `Except`; every `try/except` block of
  the source is an explicit `match` on the `Except` value.
- External collaborators (Google Places, the ride provider HTTP API, the
  translator) are oracles packaged in an environment record; the orchestrator
  functions are deterministic in the oracle answers.
- Floating-point coordinates are carried opaquely as integers: the code never
  computes on them, it only copies them between records.
- Calls made to the external ride provider are collected in an explicit trace
  so that claims of the form "no provider call happens" are statable.
-/

namespace LafzAI

/-- Supported language codes (`schemas.LanguageCode`). -/
inductive LanguageCode where
  | en
  | ta
  | ml
  deriving DecidableEq, Repr

/-- Conversation states (`schemas.ConversationState`). -/
inductive ConversationState where
  | greeting
  | asking_pickup
  | asking_drop
  | asking_phone
  | confirming_ride
  | ride_created
  | completed
  deriving DecidableEq, Repr

/-- Resolved location value (`GooglePlacesService.resolve_location` result
dict: address, coordinates, place id, name).  Coordinates are carried
opaquely. -/
structure LocationData where
  address : String
  lat : Int
  lng : Int
  place_id : String
  name : String
  deriving DecidableEq, Repr

/-- Ride details dict built by `_create_ride_booking` and stored in the
session.  `ride_id` comes from `result.get('ride_id')` on the provider JSON,
so it may be absent. -/
structure RideDetails where
  ride_id : Option Nat
  message : String
  pickup_location : Option LocationData
  drop_location : Option LocationData
  phone_number : Option String
  deriving DecidableEq, Repr

/-- One conversation-history entry (`add_conversation_entry`); `metadata`
models the optional metadata dict (`metadata or {}`). -/
structure HistoryEntry where
  timestamp : Nat
  user_message : String
  bot_response : String
  metadata : List (String × String)
  deriving DecidableEq, Repr

/-- The per-session record (`schemas.SessionContext`). -/
structure SessionContext where
  session_id : String
  user_id : Option String
  state : ConversationState
  language : LanguageCode
  pickup_location : Option LocationData
  drop_location : Option LocationData
  phone_number : Option String
  ride_details : Option RideDetails
  created_at : Nat
  updated_at : Nat
  conversation_history : List HistoryEntry
  deriving DecidableEq, Repr

/-- Python truthiness of an optional location dict: `None` is falsy, the
dicts produced by `resolve_location` are non-empty and hence truthy. -/
def truthyLoc : Option LocationData → Bool
  | none => false
  | some _ => true

/-- Python truthiness of an optional string: `None` and `''` are falsy. -/
def truthyStr : Option String → Bool
  | none => false
  | some s => !s.isEmpty

/-- Python truthiness of `ride_details.get('ride_id')`: `None` and `0` are
falsy. -/
def rideIdTruthy : Option Nat → Bool
  | none => false
  | some n => n != 0

/-- Truthiness of `session_context.ride_details and
session_context.ride_details.get('ride_id')` in `_handle_post_ride_actions`. -/
def rideDetailsHasId : Option RideDetails → Bool
  | none => false
  | some rd => rideIdTruthy rd.ride_id

/-! ### Ride provider HTTP layer (`google_services.RideBookingAPIService`) -/

/-- Failure modes of a `requests` call, as distinguished by the `except`
clauses of `create_ride`. -/
inductive HttpFailure where
  | timeout
  | connectionError
  | other (msg : String)
  deriving DecidableEq, Repr

/-- Rendering of a `requests` exception by `str(e)`; the concrete text is
library-generated and carried opaquely. -/
def httpFailureText : HttpFailure → String
  | .timeout => "timeout"
  | .connectionError => "connection error"
  | .other msg => msg

/-- Response observed by `create_ride`: HTTP status plus the JSON fields it
reads (`result.get('ride_id')`, `result.get('message')`). -/
structure CreateRideHttpResp where
  status_code : Nat
  ride_id : Option Nat
  message : Option String
  deriving DecidableEq, Repr

/-- The dict returned by a successful `create_ride`. -/
structure CreateRideResult where
  success : Bool
  ride_id : Option Nat
  message : String
  deriving DecidableEq, Repr

/-- `RideBookingAPIService.create_ride`: posts to the provider; 4xx/5xx makes
`raise_for_status` throw; every failure is re-raised as a
`RideBookingAPIException` whose message is the `.error` payload here. -/
def create_ride (http : Except HttpFailure CreateRideHttpResp) :
    Except String CreateRideResult :=
  match http with
  | .error .timeout => .error "Ride booking API timeout"
  | .error .connectionError => .error "Could not connect to ride booking API"
  | .error (.other msg) => .error ("Ride creation failed: " ++ msg)
  | .ok resp =>
      if 400 ≤ resp.status_code then
        .error ("Ride booking API HTTP error: " ++ toString resp.status_code)
      else
        .ok { success := true
              ride_id := resp.ride_id
              message := resp.message.getD "Ride created successfully" }

/-- The dict returned by a successful `cancel_ride`. -/
structure CancelRideResult where
  success : Bool
  message : String
  ride_id : Nat
  deriving DecidableEq, Repr

/-- `RideBookingAPIService.cancel_ride`: the oracle carries only the HTTP
status code (the body is never read); any exception, including the
`raise_for_status` one, is re-raised as `RideBookingAPIException`. -/
def cancel_ride (http : Except HttpFailure Nat) (ride_id : Nat) :
    Except String CancelRideResult :=
  match http with
  | .error f => .error ("Ride cancellation failed: " ++ httpFailureText f)
  | .ok status_code =>
      if 400 ≤ status_code then
        .error ("Ride cancellation failed: HTTP error " ++ toString status_code)
      else
        .ok { success := true
              message := "Ride cancelled successfully"
              ride_id := ride_id }

/-- Driver sub-dict of a ride status JSON body. -/
structure DriverInfo where
  name : Option String
  phone : Option String
  vehicle_number : Option String
  deriving DecidableEq, Repr

/-- Ride status JSON body as read by the orchestrator. -/
structure RideStatusData where
  ride_id : Nat
  status : String
  driver : Option DriverInfo
  eta : String
  deriving DecidableEq, Repr

/-- The dict returned by `get_ride_status`. -/
structure RideStatusResult where
  success : Bool
  data : RideStatusData
  deriving DecidableEq, Repr

/-- The hardcoded placeholder status record `get_ride_status` fabricates when
the provider endpoint is unavailable. -/
def mockStatusData (ride_id : Nat) : RideStatusData :=
  { ride_id := ride_id
    status := "driver_assigned"
    driver := some { name := some "Raja"
                     phone := some "3698521470"
                     vehicle_number := some "TN 01 AB 1234" }
    eta := "5 minutes" }

/-- Response observed by `get_ride_status`. -/
structure StatusHttpResp where
  status_code : Nat
  body : RideStatusData
  deriving DecidableEq, Repr

/-- `RideBookingAPIService.get_ride_status`: returns the parsed body on a 200
response and the hardcoded placeholder on any non-200 response or exception;
it never raises and never reports failure. -/
def get_ride_status (http : Except HttpFailure StatusHttpResp) (ride_id : Nat) :
    RideStatusResult :=
  match http with
  | .ok resp =>
      if resp.status_code == 200 then
        { success := true, data := resp.body }
      else
        { success := true, data := mockStatusData ride_id }
  | .error _ => { success := true, data := mockStatusData ride_id }

/-! ### Conversation orchestrator (`conversation_service.ConversationService`) -/

/-- Oracle answers for the external collaborators one turn may consult.
`resolveLocation` models `GooglePlacesService.resolve_location`, which
returns a location dict, `None`, or raises `LocationResolutionException`;
the three HTTP oracles feed the `RideBookingAPIService` functions above. -/
structure Env where
  resolveLocation : String → Except String (Option LocationData)
  createRideHttp : Except HttpFailure CreateRideHttpResp
  cancelRideHttp : Except HttpFailure Nat
  statusHttp : Except HttpFailure StatusHttpResp

/-- Trace entry: one call issued to an external provider service during a
turn (instrumentation; the source performs these as awaited side effects). -/
inductive ExtCall where
  | resolveLocation (query : String)
  | createRide
  | cancelRide (ride_id : Nat)
  | getRideStatus (ride_id : Nat)
  deriving DecidableEq, Repr

/-- Result of one state handler: either a normal `(response, new context)`
pair or a propagated exception, together with the provider calls issued
before returning. -/
abbrev HandlerOut := Except String (String × SessionContext) × List ExtCall

/-- `''.join(filter(str.isdigit, user_input))`, as the character list. -/
def extractDigits (s : String) : List Char :=
  s.toList.filter Char.isDigit

/-- Python `l[-n:]`: the last `n` elements (all of them when shorter). -/
def lastN {α : Type} (n : Nat) (l : List α) : List α :=
  l.drop (l.length - n)

/-- Python `f"{x}"` on an optional integer: `None` prints as `"None"`. -/
def showOptNat : Option Nat → String
  | none => "None"
  | some n => toString n

/-- The phone number `_handle_phone_number` normalizes out of an utterance:
the last ten of its digit characters. -/
def phoneOf (user_input : String) : String :=
  String.mk (lastN 10 (extractDigits user_input))

/-- Python substring test `sub in l` on character lists. -/
def isPrefixCh : List Char → List Char → Bool
  | [], _ => true
  | _ :: _, [] => false
  | a :: as, b :: bs => a == b && isPrefixCh as bs

/-- Python substring test `sub in l` on character lists. -/
def containsSubList (sub : List Char) : List Char → Bool
  | [] => sub.isEmpty
  | c :: rest => isPrefixCh sub (c :: rest) || containsSubList sub rest

/-- Python `sub in s` on strings. -/
def strContains (s sub : String) : Bool :=
  containsSubList sub.toList s.toList

/-- Python `s.lower()`, character by character. -/
def strToLower (s : String) : String :=
  String.mk (s.toList.map Char.toLower)

/-- Outcome dict of `_create_ride_booking`.  The failure dicts carry
`error`; the success dict carries `ride_id` and `ride_details`. -/
structure RideBookingOutcome where
  success : Bool
  error : Option String
  ride_id : Option Nat
  ride_details : Option RideDetails
  deriving DecidableEq, Repr

/-- `ConversationService._create_ride_booking`.  Fails fast without a
provider call when any of pickup/drop/phone is falsy; otherwise calls
`create_ride`, catching its exception into a failure dict.  The
`success = false` arm of the provider result is unreachable for the concrete
`create_ride` but kept from the source (`result.get('error', 'Unknown
error')`). -/
def create_ride_booking (env : Env) (ctx : SessionContext) :
    RideBookingOutcome × List ExtCall :=
  if !(truthyLoc ctx.pickup_location && truthyLoc ctx.drop_location &&
       truthyStr ctx.phone_number) then
    ({ success := false
       error := some "Missing required booking information"
       ride_id := none
       ride_details := none }, [])
  else
    match create_ride env.createRideHttp with
    | .error e =>
        ({ success := false, error := some e, ride_id := none,
           ride_details := none }, [.createRide])
    | .ok result =>
        if result.success then
          let rd : RideDetails :=
            { ride_id := result.ride_id
              message := result.message
              pickup_location := ctx.pickup_location
              drop_location := ctx.drop_location
              phone_number := ctx.phone_number }
          ({ success := true, error := none, ride_id := result.ride_id,
             ride_details := some rd }, [.createRide])
        else
          ({ success := false, error := some "Unknown error", ride_id := none,
             ride_details := none }, [.createRide])

/-- `ConversationService._handle_greeting`: advance to `asking_pickup` and
prompt for the pickup location.  Its internal `except` arm is unreachable in
this model because the session-store setters swallow their own errors. -/
def handle_greeting (_user_input : String) (ctx : SessionContext) : HandlerOut :=
  (.ok ("Hello! I help with auto ride booking. What is your pickup location?",
        { ctx with state := ConversationState.asking_pickup }), [])

/-- `ConversationService._handle_pickup_location`: resolve the utterance; on
resolver exception the handler-boundary `except` answers with a retry
apology, on `None` with a retry prompt, on success it stores the location and
advances to `asking_drop`. -/
def handle_pickup_location (env : Env) (user_input : String)
    (ctx : SessionContext) : HandlerOut :=
  match env.resolveLocation user_input with
  | .error _ =>
      (.ok ("Sorry, I couldn\x27t process that pickup location. Please try again.",
            ctx), [.resolveLocation user_input])
  | .ok none =>
      (.ok ("I couldn\x27t find that pickup location. Please try again with a more specific address.",
            ctx), [.resolveLocation user_input])
  | .ok (some loc) =>
      (.ok ("Great! Pickup location set to " ++ loc.address ++
              ". What is your drop location?",
            { ctx with pickup_location := some loc
                       state := ConversationState.asking_drop }),
       [.resolveLocation user_input])

/-- `ConversationService._handle_drop_location`: same shape as the pickup
handler, advancing to `asking_phone`. -/
def handle_drop_location (env : Env) (user_input : String)
    (ctx : SessionContext) : HandlerOut :=
  match env.resolveLocation user_input with
  | .error _ =>
      (.ok ("Sorry, I couldn\x27t process that drop location. Please try again.",
            ctx), [.resolveLocation user_input])
  | .ok none =>
      (.ok ("I couldn\x27t find that drop location. Please try again with a more specific address.",
            ctx), [.resolveLocation user_input])
  | .ok (some loc) =>
      (.ok ("Perfect! Drop location set to " ++ loc.address ++
              ". Please provide your phone number so the driver can contact you.",
            { ctx with drop_location := some loc
                       state := ConversationState.asking_phone }),
       [.resolveLocation user_input])

/-- `ConversationService._handle_phone_number`: keep the digit characters of
the utterance; fewer than ten means a retry prompt with nothing changed;
otherwise store the last ten digits as the phone number and invoke the ride
booking sub-flow synchronously. -/
def handle_phone_number (env : Env) (user_input : String)
    (ctx : SessionContext) : HandlerOut :=
  if (extractDigits user_input).length < 10 then
    (.ok ("Please provide a valid 10-digit phone number.", ctx), [])
  else
    match create_ride_booking env
        { ctx with phone_number := some (phoneOf user_input) } with
    | (outcome, calls) =>
      if outcome.success then
        (.ok ("Ride request sent successfully! Ride ID: " ++
                showOptNat outcome.ride_id ++
                ". Driver will call you in 5 minutes.",
              { ctx with phone_number := some (phoneOf user_input)
                         state := ConversationState.ride_created
                         ride_details := outcome.ride_details }), calls)
      else
        (.ok ("Sorry, failed to create ride booking: " ++
                (outcome.error.getD "") ++ ". Please try again.",
              { ctx with phone_number := some (phoneOf user_input) }), calls)

/-- `ConversationService._handle_ride_confirmation`: delegates verbatim to
the phone-number handler. -/
def handle_ride_confirmation (env : Env) (user_input : String)
    (ctx : SessionContext) : HandlerOut :=
  handle_phone_number env user_input ctx

/-- The fixed menu reminder answered in `ride_created` when no branch
produces a response. -/
def postRideMenuResponse : String :=
  "Your ride is confirmed. You can ask for \x27status\x27, \x27cancel\x27 the ride, or book a \x27new\x27 ride."

/-- `ConversationService._handle_post_ride_actions`: keyword dispatch on the
lowered utterance.  A status query needs a truthy ride id, else it falls
through to the menu reminder; same for cancel; a failed cancel call raises to
the handler boundary, which answers with its own fallback text. -/
def handle_post_ride_actions (env : Env) (user_input : String)
    (ctx : SessionContext) : HandlerOut :=
  let lower := strToLower user_input
  if strContains lower "status" || strContains lower "driver" then
    if rideDetailsHasId ctx.ride_details then
      let rid := ((ctx.ride_details.bind RideDetails.ride_id).getD 0)
      let status_result := get_ride_status env.statusHttp rid
      if status_result.success then
        let driver := status_result.data.driver
        (.ok ("Driver Name: " ++
                ((driver.bind DriverInfo.name).getD "Not assigned") ++
                ", Phone: " ++
                ((driver.bind DriverInfo.phone).getD "Not available"),
              ctx), [.getRideStatus rid])
      else
        (.ok (postRideMenuResponse, ctx), [.getRideStatus rid])
    else
      (.ok (postRideMenuResponse, ctx), [])
  else if strContains lower "cancel" then
    if rideDetailsHasId ctx.ride_details then
      let rid := ((ctx.ride_details.bind RideDetails.ride_id).getD 0)
      match cancel_ride env.cancelRideHttp rid with
      | .error _ =>
          (.ok ("How else can I help you with your ride?", ctx),
           [.cancelRide rid])
      | .ok cancel_result =>
          if cancel_result.success then
            (.ok ("Your ride has been cancelled.",
                  { ctx with state := ConversationState.greeting }),
             [.cancelRide rid])
          else
            (.ok (postRideMenuResponse, ctx), [.cancelRide rid])
    else
      (.ok (postRideMenuResponse, ctx), [])
  else if strContains lower "new" || strContains lower "another" then
    (.ok ("Sure! What is your pickup location for the new ride?",
          { ctx with state := ConversationState.asking_pickup }), [])
  else
    (.ok (postRideMenuResponse, ctx), [])

/-- The six per-state handlers `_process_conversation_logic` dispatches to,
abstracted so the dispatch boundary can be stated for an arbitrary handler
outcome (at run time any of them may raise). -/
structure HandlerFamily where
  onGreeting : String → SessionContext → HandlerOut
  onPickup : String → SessionContext → HandlerOut
  onDrop : String → SessionContext → HandlerOut
  onPhone : String → SessionContext → HandlerOut
  onConfirm : String → SessionContext → HandlerOut
  onPostRide : String → SessionContext → HandlerOut

/-- The `if/elif` dispatch of `_process_conversation_logic`; the `else`
branch (reached for `completed`) falls back to the greeting handler. -/
def dispatchHandler (h : HandlerFamily) (user_input : String)
    (ctx : SessionContext) : HandlerOut :=
  match ctx.state with
  | .greeting => h.onGreeting user_input ctx
  | .asking_pickup => h.onPickup user_input ctx
  | .asking_drop => h.onDrop user_input ctx
  | .asking_phone => h.onPhone user_input ctx
  | .confirming_ride => h.onConfirm user_input ctx
  | .ride_created => h.onPostRide user_input ctx
  | .completed => h.onGreeting user_input ctx

/-- The generic apologetic response of `_process_conversation_logic`'s
`except` arm. -/
def errorFallbackResponse : String :=
  "I\x27m sorry, I encountered an error. Please try again."

/-- `_process_conversation_logic` over an arbitrary handler family: run the
state handler; an exception is caught at this boundary and converted to the
generic apologetic response with the incoming session context. -/
def process_conversation_logic_with (h : HandlerFamily) (user_input : String)
    (ctx : SessionContext) : String × SessionContext × List ExtCall :=
  match dispatchHandler h user_input ctx with
  | (.ok (response, ctx2), calls) => (response, ctx2, calls)
  | (.error _, calls) => (errorFallbackResponse, ctx, calls)

/-- The concrete handler family of `ConversationService`. -/
def conversationHandlers (env : Env) : HandlerFamily :=
  { onGreeting := handle_greeting
    onPickup := handle_pickup_location env
    onDrop := handle_drop_location env
    onPhone := handle_phone_number env
    onConfirm := handle_ride_confirmation env
    onPostRide := handle_post_ride_actions env }

/-- `ConversationService._process_conversation_logic` with its concrete
handlers. -/
def process_conversation_logic (env : Env) (user_input : String)
    (ctx : SessionContext) : String × SessionContext × List ExtCall :=
  process_conversation_logic_with (conversationHandlers env) user_input ctx

/-! ### Session store (`session_service.SessionManager` over Redis)

The Redis keyspace is modelled as an association list from keys to a record
of remaining TTL (seconds) and the stored session JSON (kept structurally).
Connectivity failures are orthogonal to the claims proved here and are not
part of the pure store model. -/

/-- One stored Redis value: remaining TTL plus the serialized session. -/
structure RedisEntry where
  ttl : Nat
  value : SessionContext
  deriving DecidableEq, Repr

/-- The Redis keyspace. -/
abbrev RedisStore := List (String × RedisEntry)

/-- Redis `GET`. -/
def redisGet (store : RedisStore) (key : String) : Option RedisEntry :=
  match store.find? (fun p => p.fst == key) with
  | some p => some p.snd
  | none => none

/-- Redis `SETEX`: writes the value and sets the key TTL to `ttl`. -/
def redisSetex (store : RedisStore) (key : String) (ttl : Nat)
    (v : SessionContext) : RedisStore :=
  (key, { ttl := ttl, value := v }) :: store.filter (fun p => p.fst != key)

/-- Redis `EXPIRE`: resets the TTL of an existing key, `false` when gone. -/
def redisExpire (store : RedisStore) (key : String) (ttl : Nat) :
    RedisStore × Bool :=
  match redisGet store key with
  | none => (store, false)
  | some e => (redisSetex store key ttl e.value, true)

/-- `settings.session_ttl` (config/settings.py default: one hour). -/
def session_ttl : Nat := 3600

/-- One named-field update from the `updates` dict of
`SessionManager.update_session`, applied via `setattr`. -/
inductive FieldUpdate where
  | setState (s : ConversationState)
  | setPickup (l : LocationData)
  | setDrop (l : LocationData)
  | setPhone (p : String)
  | setRideDetails (r : RideDetails)
  | setHistory (h : List HistoryEntry)
  deriving DecidableEq, Repr

/-- `setattr(session_context, key, value)` for one update entry. -/
def applyUpdate (ctx : SessionContext) : FieldUpdate → SessionContext
  | .setState s => { ctx with state := s }
  | .setPickup l => { ctx with pickup_location := some l }
  | .setDrop l => { ctx with drop_location := some l }
  | .setPhone p => { ctx with phone_number := some p }
  | .setRideDetails r => { ctx with ride_details := some r }
  | .setHistory h => { ctx with conversation_history := h }

/-- `SessionManager.get_session`: parse the stored record, `None` when the
key is absent or expired. -/
def get_session (store : RedisStore) (session_id : String) :
    Option SessionContext :=
  (redisGet store session_id).map RedisEntry.value

/-- `SessionManager.update_session`: read the record, apply the named-field
updates, refresh `updated_at` to now, and rewrite the record with `SETEX`
using the full `session_ttl` window. -/
def update_session (store : RedisStore) (session_id : String)
    (updates : List FieldUpdate) (now : Nat) : RedisStore × Bool :=
  match get_session store session_id with
  | none => (store, false)
  | some ctx =>
      let merged := updates.foldl applyUpdate ctx
      let merged := { merged with updated_at := now }
      (redisSetex store session_id session_ttl merged, true)

/-- `SessionManager.extend_session`: `EXPIRE` with the full TTL window. -/
def extend_session (store : RedisStore) (session_id : String) :
    RedisStore × Bool :=
  redisExpire store session_id session_ttl

/-- The history trim of `add_conversation_entry`: keep the last 50 entries
when the list exceeds 50. -/
def trimHistory (h : List HistoryEntry) : List HistoryEntry :=
  if h.length > 50 then h.drop (h.length - 50) else h

/-- The `conversation_entry` dict built by `add_conversation_entry`. -/
def mkHistoryEntry (now : Nat) (user_message bot_response : String)
    (metadata : List (String × String)) : HistoryEntry :=
  { timestamp := now, user_message := user_message,
    bot_response := bot_response, metadata := metadata }

/-- `SessionManager.add_conversation_entry`: append one turn record, trim to
the most recent 50, and persist through `update_session`. -/
def add_conversation_entry (store : RedisStore) (session_id : String)
    (user_message bot_response : String) (metadata : List (String × String))
    (now : Nat) : RedisStore × Bool :=
  match get_session store session_id with
  | none => (store, false)
  | some ctx =>
      let entry := mkHistoryEntry now user_message bot_response metadata
      let h := trimHistory (ctx.conversation_history ++ [entry])
      update_session store session_id [.setHistory h] now

/-! ### Public text-turn entry point (`ConversationService.process_chat_message`) -/

/-- A Python exception as observed by the entry-point `except` arm:
`AIRideBookingException` (and its subclasses, e.g. `SessionException`)
versus anything else. -/
inductive PyExn where
  | airb (msg : String)
  | other (msg : String)
  deriving DecidableEq, Repr

/-- `str(e)` on a caught exception. -/
def exnMessage : PyExn → String
  | .airb msg => msg
  | .other msg => msg

/-- Oracles for one text turn.  `create_session` and `get_session_oracle`
may raise `SessionException`; language detection and the two translation
directions never raise observably (`TranslationService` catches internally
and falls back), so they are total oracles. -/
structure TurnEnv where
  create_session : Except PyExn String
  get_session_oracle : String → Except PyExn (Option SessionContext)
  detect_language : String → LanguageCode
  translate_to_english : String → LanguageCode → String
  translate_from_english : String → LanguageCode → String
  conv : Env

/-- `TranslationService.translate_if_needed`: translate only for the two
non-pivot languages; its own `except` arm returns the original text, so the
function is total. -/
def translate_if_needed (env : TurnEnv) (text : String)
    (detected : LanguageCode) (to_english : Bool) : String × LanguageCode :=
  if to_english then
    match detected with
    | .ta => (env.translate_to_english text .ta, .ta)
    | .ml => (env.translate_to_english text .ml, .ml)
    | .en => (text, .en)
  else
    match detected with
    | .ta => (env.translate_from_english text .ta, .ta)
    | .ml => (env.translate_from_english text .ml, .ml)
    | .en => (text, .en)

/-- `ConversationService._get_next_action`: static per-state lookup. -/
def get_next_action (ctx : SessionContext) : Option String :=
  match ctx.state with
  | .greeting => some "provide_greeting"
  | .asking_pickup => some "provide_pickup_location"
  | .asking_drop => some "provide_drop_location"
  | .asking_phone => some "provide_phone_number"
  | .confirming_ride => some "confirm_ride"
  | .ride_created => some "ride_management"
  | .completed => some "new_booking"

/-- The result dict of a successful `process_chat_message`. -/
structure ChatResult where
  response : String
  session_id : String
  detected_language : LanguageCode
  conversation_state : ConversationState
  ride_details : Option RideDetails
  next_action : Option String
  deriving DecidableEq, Repr

/-- The body of `process_chat_message`'s `try` block.  When the second
session lookup still yields `None`, the `None` flows into
`_process_conversation_logic` (whose boundary catch answers the generic
apology) and then blows up with an `AttributeError` when the result dict
dereferences `updated_context.state`; that terminal dereference is the
`.error` arm here.  The history append and TTL extension calls return
booleans the source ignores, so they do not appear in the returned value. -/
def chat_pipeline (env : TurnEnv) (message : String)
    (session_id0 : Option String) : Except PyExn ChatResult := do
  let sid1 ←
    if truthyStr session_id0 then pure (session_id0.getD "")
    else env.create_session
  let found ← env.get_session_oracle sid1
  let (sid, sessionOpt) ←
    match found with
    | some sc => pure (sid1, some sc)
    | none => do
        let sid2 ← env.create_session
        let again ← env.get_session_oracle sid2
        pure (sid2, again)
  let detected := env.detect_language message
  let english := (translate_if_needed env message detected true).fst
  let (response_text, updatedOpt) :=
    match sessionOpt with
    | some sc =>
        let step := process_conversation_logic env.conv english sc
        (step.fst, some step.snd.fst)
    | none => (errorFallbackResponse, (none : Option SessionContext))
  let final_response := (translate_if_needed env response_text detected false).fst
  match updatedOpt with
  | none => .error (.other "AttributeError: NoneType has no attribute state")
  | some updated =>
      .ok { response := final_response
            session_id := sid
            detected_language := detected
            conversation_state := updated.state
            ride_details := updated.ride_details
            next_action := get_next_action updated }

/-- `ConversationService.process_chat_message`: the whole pipeline inside one
`try`; any exception is re-raised as
`AIRideBookingException(f"Chat processing failed: {e}")`. -/
def process_chat_message (env : TurnEnv) (message : String)
    (session_id0 : Option String) : Except PyExn ChatResult :=
  match chat_pipeline env message session_id0 with
  | .ok r => .ok r
  | .error e => .error (.airb ("Chat processing failed: " ++ exnMessage e))

/-! ### Concrete fixtures used by the closed witness theorems -/

/-- A resolved location for concrete runs. -/
def demoLoc : LocationData :=
  { address := "Ukkadam, Coimbatore", lat := 10, lng := 76,
    place_id := "p1", name := "Ukkadam" }

/-- A session in `asking_phone` with pickup and drop already resolved. -/
def demoCtx : SessionContext :=
  { session_id := "s1", user_id := none,
    state := ConversationState.asking_phone, language := LanguageCode.en,
    pickup_location := some demoLoc, drop_location := some demoLoc,
    phone_number := none, ride_details := none, created_at := 0,
    updated_at := 0, conversation_history := [] }

/-- A session in `ride_created` holding a booked ride with id 42. -/
def demoRideCtx : SessionContext :=
  { demoCtx with
      state := ConversationState.ride_created
      phone_number := some "9876543210"
      ride_details := some
        { ride_id := some 42, message := "created",
          pickup_location := some demoLoc, drop_location := some demoLoc,
          phone_number := some "9876543210" } }

/-- A session in `ride_created` with no stored ride details. -/
def demoRideCtxNoId : SessionContext :=
  { demoCtx with state := ConversationState.ride_created }

/-- Oracles on which every collaborator succeeds. -/
def demoEnvOk : Env :=
  { resolveLocation := fun _ => .ok (some demoLoc)
    createRideHttp := .ok { status_code := 200, ride_id := some 42,
                            message := some "created" }
    cancelRideHttp := .ok 200
    statusHttp := .ok { status_code := 200, body := mockStatusData 42 } }

/-- Oracles on which the ride-creation HTTP call times out. -/
def demoEnvFail : Env :=
  { demoEnvOk with createRideHttp := .error HttpFailure.timeout }

/-- A handler family in which every state handler raises. -/
def failingHandlers : HandlerFamily :=
  { onGreeting := fun _ _ => (.error "boom", [])
    onPickup := fun _ _ => (.error "boom", [])
    onDrop := fun _ _ => (.error "boom", [])
    onPhone := fun _ _ => (.error "boom", [])
    onConfirm := fun _ _ => (.error "boom", [])
    onPostRide := fun _ _ => (.error "boom", []) }

/-- A one-session Redis keyspace whose entry has 100 seconds of TTL left. -/
def demoStore : RedisStore := [("s1", { ttl := 100, value := demoCtx })]

/-! ### Helper lemmas shared across the claim theorems -/

/-- A `SETEX` write is immediately readable with the TTL it set. -/
theorem redisGet_setex_self (store : RedisStore) (key : String) (ttl : Nat)
    (v : SessionContext) :
    redisGet (redisSetex store key ttl v) key =
      some { ttl := ttl, value := v } := by
  unfold redisGet redisSetex
  rw [List.find?_cons_of_pos]
  simp

/-- The history trim keeps exactly the maximal suffix of at most 50
entries. -/
theorem trimHistory_eq_drop (l : List HistoryEntry) :
    trimHistory l = l.drop (l.length - 50) := by
  unfold trimHistory
  split
  · rfl
  · next h =>
      have h50 : l.length - 50 = 0 := by omega
      rw [h50, List.drop_zero]

/-- The trimmed history never exceeds 50 entries. -/
theorem trimHistory_length_le (l : List HistoryEntry) :
    (trimHistory l).length ≤ 50 := by
  rw [trimHistory_eq_drop, List.length_drop]
  omega

/-- `lastN` keeps `min n (length l)` elements. -/
theorem lastN_length {α : Type} (n : Nat) (l : List α) :
    (lastN n l).length = min n l.length := by
  unfold lastN
  rw [List.length_drop]
  omega

/-- A string built from a non-empty character list is not empty. -/
theorem stringMk_isEmpty_false (l : List Char) (h : l ≠ []) :
    (String.mk l).isEmpty = false := by
  rw [Bool.eq_false_iff, ne_eq, String.isEmpty_iff]
  intro he
  have hd := congrArg String.data he
  exact h hd

/-- The status query always reports success (it substitutes the placeholder
on any failure). -/
theorem get_ride_status_success (http : Except HttpFailure StatusHttpResp)
    (ride_id : Nat) :
    (get_ride_status http ride_id).success = true := by
  cases http with
  | ok resp =>
      unfold get_ride_status
      by_cases hc : resp.status_code == 200 <;> simp [hc]
  | error f => rfl

/-- The booking sub-flow reports success only when pickup, drop and phone
were all truthy on the session it was given. -/
theorem create_ride_booking_success (env : Env) (ctx : SessionContext)
    (h : (create_ride_booking env ctx).fst.success = true) :
    truthyLoc ctx.pickup_location = true ∧
      truthyLoc ctx.drop_location = true ∧
      truthyStr ctx.phone_number = true := by
  unfold create_ride_booking at h
  split at h
  · simp at h
  · next hcond =>
      rw [Bool.not_eq_true, Bool.not_eq_eq_eq_not, Bool.not_false] at hcond
      simp only [Bool.and_eq_true] at hcond
      exact ⟨hcond.1.1, hcond.1.2, hcond.2⟩

/-! ### Claim theorems -/

/-- Claim C9: the `confirming_ride` handler returns exactly the same
`(response, updated session)` output as the `asking_phone` handler on every
input and session context, provider calls included. -/
theorem confirm_handler_equals_phone_handler (env : Env) (user_input : String)
    (ctx : SessionContext) :
    handle_ride_confirmation env user_input ctx =
      handle_phone_number env user_input ctx := rfl

/-- Claim C8: `get_ride_status` never reports failure and never raises: it is
a total function whose `success` flag is always `true`, and on a non-200
provider response or on any transport exception it returns the hardcoded
placeholder record (driver Raja, status driver_assigned). -/
theorem get_ride_status_never_fails (http : Except HttpFailure StatusHttpResp)
    (ride_id : Nat) :
    (get_ride_status http ride_id).success = true ∧
    (∀ resp, http = .ok resp → resp.status_code ≠ 200 →
      get_ride_status http ride_id =
        { success := true, data := mockStatusData ride_id }) ∧
    (∀ f, http = .error f →
      get_ride_status http ride_id =
        { success := true, data := mockStatusData ride_id }) := by
  refine ⟨?_, ?_, ?_⟩
  · cases http with
    | ok resp =>
        unfold get_ride_status
        by_cases hc : resp.status_code == 200 <;> simp [hc]
    | error f => rfl
  · intro resp hresp hne
    subst hresp
    unfold get_ride_status
    have hc : (resp.status_code == 200) = false := by
      simpa using hne
    simp [hc]
  · intro f hf
    subst hf
    rfl

/-- Claim C8 witness: a 500 response and a timeout both yield the success
placeholder. -/
theorem get_ride_status_never_fails_witness :
    get_ride_status (.ok { status_code := 500, body := mockStatusData 0 }) 7 =
      { success := true, data := mockStatusData 7 } ∧
    get_ride_status (.error HttpFailure.timeout) 7 =
      { success := true, data := mockStatusData 7 } :=
  ⟨(get_ride_status_never_fails (.ok { status_code := 500, body := mockStatusData 0 }) 7).2.1
      _ rfl (by decide),
   (get_ride_status_never_fails (.error HttpFailure.timeout) 7).2.2 _ rfl⟩

/-- Claim C1: whatever the state-specific handler does, if it raises then the
`_process_conversation_logic` boundary catches the exception, answers the
generic apologetic response, and hands back the incoming session context, so
the turn leaves the conversation state exactly as it was and nothing
propagates out of the dispatch. -/
theorem handler_exception_caught (h : HandlerFamily) (user_input : String)
    (ctx : SessionContext) (e : String) (calls : List ExtCall)
    (herr : dispatchHandler h user_input ctx = (.error e, calls)) :
    process_conversation_logic_with h user_input ctx =
      (errorFallbackResponse, ctx, calls) := by
  unfold process_conversation_logic_with
  rw [herr]

/-- Claim C1 witness: with a handler family that raises in every state, the
dispatch for a session in `asking_phone` answers the apologetic response and
keeps the context unchanged. -/
theorem handler_exception_caught_witness :
    process_conversation_logic_with failingHandlers "hello" demoCtx =
      (errorFallbackResponse, demoCtx, []) :=
  handler_exception_caught failingHandlers "hello" demoCtx "boom" [] rfl

/-- Claim C7: for every input message and optional session id, the public
text-turn entry point either returns a complete result record (response,
session id, detected language, conversation state, ride details, next
action) or fails with the declared `AIRideBookingException` wrapping — no
other failure shape escapes. -/
theorem process_chat_message_total (env : TurnEnv) (message : String)
    (session_id0 : Option String) :
    (∃ r, process_chat_message env message session_id0 = .ok r) ∨
    (∃ m, process_chat_message env message session_id0 =
        .error (PyExn.airb ("Chat processing failed: " ++ m))) := by
  unfold process_chat_message
  cases chat_pipeline env message session_id0 with
  | ok r => exact .inl ⟨r, rfl⟩
  | error e => exact .inr ⟨exnMessage e, rfl⟩

/-- Claim C3 counterexample: `update_session` does not leave the remaining
TTL unchanged.  On a store whose only entry has 100 seconds of TTL left, an
update with an empty field list rewrites the entry with the full 3600-second
window. -/
theorem update_session_ttl_counterexample :
    (redisGet demoStore "s1").map RedisEntry.ttl = some 100 ∧
    (redisGet (update_session demoStore "s1" [] 5).fst "s1").map RedisEntry.ttl =
      some session_ttl ∧
    session_ttl ≠ 100 := by
  refine ⟨rfl, rfl, by decide⟩

/-- Claim C3 (amended): for every existing session, `update_session` merges
the named fields and refreshes `updated_at`, but it rewrites the record with
`SETEX` using the full TTL window, so every successful update resets the
remaining TTL to `session_ttl` exactly as `extend_session` does. -/
theorem update_session_merges_and_resets_ttl (store : RedisStore)
    (session_id : String) (updates : List FieldUpdate) (now : Nat)
    (entry : RedisEntry) (hget : redisGet store session_id = some entry) :
    (update_session store session_id updates now).snd = true ∧
    redisGet (update_session store session_id updates now).fst session_id =
      some { ttl := session_ttl,
             value := { updates.foldl applyUpdate entry.value with
                          updated_at := now } } := by
  unfold update_session get_session
  rw [hget]
  exact ⟨rfl, redisGet_setex_self _ _ _ _⟩

/-- Claim C3 amended-theorem witness: the concrete one-entry store. -/
theorem update_session_merges_and_resets_ttl_witness :
    (update_session demoStore "s1" [] 5).snd = true ∧
    redisGet (update_session demoStore "s1" [] 5).fst "s1" =
      some { ttl := session_ttl, value := { demoCtx with updated_at := 5 } } :=
  update_session_merges_and_resets_ttl demoStore "s1" [] 5
    { ttl := 100, value := demoCtx } rfl

/-- Claim C5: after any `add_conversation_entry` on an existing session the
stored history is exactly the suffix of the old history plus the new entry
that keeps the most recent at most 50 entries in original order, and its
length never exceeds 50. -/
theorem add_conversation_entry_bounded (store : RedisStore)
    (session_id : String) (user_message bot_response : String)
    (metadata : List (String × String)) (now : Nat) (ctx : SessionContext)
    (hget : get_session store session_id = some ctx) :
    ∃ ctx2,
      get_session
          (add_conversation_entry store session_id user_message bot_response
            metadata now).fst session_id = some ctx2 ∧
      ctx2.conversation_history =
        (ctx.conversation_history ++
            [mkHistoryEntry now user_message bot_response metadata]).drop
          (ctx.conversation_history.length + 1 - 50) ∧
      ctx2.conversation_history.length ≤ 50 := by
  have step1 : add_conversation_entry store session_id user_message
      bot_response metadata now =
        update_session store session_id
          [FieldUpdate.setHistory
            (trimHistory (ctx.conversation_history ++
              [mkHistoryEntry now user_message bot_response metadata]))] now := by
    unfold add_conversation_entry
    rw [hget]
  have step2 : update_session store session_id
      [FieldUpdate.setHistory
        (trimHistory (ctx.conversation_history ++
          [mkHistoryEntry now user_message bot_response metadata]))] now =
        (redisSetex store session_id session_ttl
          { ctx with
              conversation_history :=
                trimHistory (ctx.conversation_history ++
                  [mkHistoryEntry now user_message bot_response metadata])
              updated_at := now }, true) := by
    unfold update_session
    rw [hget]
    rfl
  rw [step1, step2]
  refine ⟨{ ctx with
              conversation_history :=
                trimHistory (ctx.conversation_history ++
                  [mkHistoryEntry now user_message bot_response metadata])
              updated_at := now }, ?_, ?_, ?_⟩
  · unfold get_session
    rw [redisGet_setex_self]
    rfl
  · show trimHistory _ = _
    rw [trimHistory_eq_drop, List.length_append]
    rfl
  · exact trimHistory_length_le _

/-- Claim C5 witness: appending to the concrete one-entry store. -/
theorem add_conversation_entry_bounded_witness :
    ∃ ctx2,
      get_session
          (add_conversation_entry demoStore "s1" "hi" "hello" [] 7).fst "s1" =
        some ctx2 ∧
      ctx2.conversation_history =
        (demoCtx.conversation_history ++
            [mkHistoryEntry 7 "hi" "hello" []]).drop
          (demoCtx.conversation_history.length + 1 - 50) ∧
      ctx2.conversation_history.length ≤ 50 :=
  add_conversation_entry_bounded demoStore "s1" "hi" "hello" [] 7 demoCtx rfl

/-- Claim C4: the `asking_phone` handler keeps exactly the digit characters
of the utterance in order; fewer than ten digits yields the retry prompt
with the session unchanged (so the state stays `asking_phone`), and with ten
or more digits the stored phone number is exactly the last ten digits and
the ride-booking sub-flow is invoked synchronously on the phone-updated
session (the handler output carries that sub-flow call trace). -/
theorem phone_handler_last_ten_digits (env : Env) (user_input : String)
    (ctx : SessionContext) :
    ((extractDigits user_input).length < 10 →
      handle_phone_number env user_input ctx =
        (.ok ("Please provide a valid 10-digit phone number.", ctx), [])) ∧
    (10 ≤ (extractDigits user_input).length →
      ∃ response ctx2,
        handle_phone_number env user_input ctx =
          (.ok (response, ctx2),
            (create_ride_booking env
              { ctx with phone_number := some (phoneOf user_input) }).snd) ∧
        ctx2.phone_number = some (phoneOf user_input)) := by
  constructor
  · intro hlt
    unfold handle_phone_number
    rw [if_pos hlt]
  · intro hge
    have hnlt : ¬ (extractDigits user_input).length < 10 := by omega
    unfold handle_phone_number
    rw [if_neg hnlt]
    cases hcr : create_ride_booking env
        { ctx with phone_number := some (phoneOf user_input) } with
    | mk outcome calls =>
      by_cases hs : outcome.success = true
      · simp only [hs, if_true]
        exact ⟨_, _, rfl, rfl⟩
      · rw [Bool.not_eq_true] at hs
        simp only [hs, Bool.false_eq_true, if_false]
        exact ⟨_, _, rfl, rfl⟩

/-- A ten-digit-or-more utterance normalizes to a non-empty (hence truthy)
phone string. -/
theorem phoneOf_truthy (user_input : String)
    (hge : 10 ≤ (extractDigits user_input).length) :
    truthyStr (some (phoneOf user_input)) = true := by
  unfold truthyStr phoneOf
  show (!(String.mk (lastN 10 (extractDigits user_input))).isEmpty) = true
  rw [stringMk_isEmpty_false]
  · rfl
  · intro hnil
    have hlen := lastN_length 10 (extractDigits user_input)
    rw [hnil, Nat.min_eq_left hge] at hlen
    cases hlen

/-- When pickup, drop and phone are truthy and the provider call raises, the
booking sub-flow returns the failure dict carrying the provider error text,
after one provider call. -/
theorem create_ride_booking_provider_error (env : Env) (ctx : SessionContext)
    (e : String) (hp : truthyLoc ctx.pickup_location = true)
    (hd : truthyLoc ctx.drop_location = true)
    (hph : truthyStr ctx.phone_number = true)
    (he : create_ride env.createRideHttp = .error e) :
    create_ride_booking env ctx =
      ({ success := false, error := some e, ride_id := none,
         ride_details := none }, [ExtCall.createRide]) := by
  unfold create_ride_booking
  rw [hp, hd, hph, he]
  rfl

/-- Claim C4 witness: the utterance "call me at 98765-43210" normalizes to
the phone number 9876543210 and triggers the booking sub-flow; a
three-digit utterance is rejected with the retry prompt. -/
theorem phone_handler_last_ten_digits_witness :
    (∃ response ctx2,
      handle_phone_number demoEnvOk "call me at 98765-43210" demoCtx =
        (.ok (response, ctx2),
          (create_ride_booking demoEnvOk
            { demoCtx with
                phone_number := some (phoneOf "call me at 98765-43210") }).snd) ∧
      ctx2.phone_number = some (phoneOf "call me at 98765-43210")) ∧
    phoneOf "call me at 98765-43210" = "9876543210" ∧
    handle_phone_number demoEnvOk "123" demoCtx =
      (.ok ("Please provide a valid 10-digit phone number.", demoCtx), []) :=
  ⟨(phone_handler_last_ten_digits demoEnvOk "call me at 98765-43210" demoCtx).2
      (by decide),
   by decide,
   (phone_handler_last_ten_digits demoEnvOk "123" demoCtx).1 (by decide)⟩

/-- If the phone handler answers normally with a session in `ride_created`
while the incoming session was not yet there, then the answered session has
truthy pickup, drop and phone: only the booking-success branch moves to
`ride_created`, and booking success presupposes the truthiness check. -/
theorem phone_handler_ride_created (env : Env) (user_input : String)
    (ctx : SessionContext) (r : String) (c : SessionContext)
    (cl : List ExtCall)
    (hH : handle_phone_number env user_input ctx = (.ok (r, c), cl))
    (hpre : ctx.state ≠ ConversationState.ride_created)
    (hc : c.state = ConversationState.ride_created) :
    truthyLoc c.pickup_location = true ∧ truthyLoc c.drop_location = true ∧
      truthyStr c.phone_number = true := by
  unfold handle_phone_number at hH
  by_cases hlt : (extractDigits user_input).length < 10
  · rw [if_pos hlt] at hH
    simp only [Prod.mk.injEq, Except.ok.injEq] at hH
    obtain ⟨⟨_, hcctx⟩, _⟩ := hH
    subst hcctx
    exact absurd hc hpre
  · rw [if_neg hlt] at hH
    cases hcr : create_ride_booking env
        { ctx with phone_number := some (phoneOf user_input) } with
    | mk outcome calls =>
      rw [hcr] at hH
      by_cases hsucc : outcome.success = true
      · simp only [hsucc, if_true, Prod.mk.injEq, Except.ok.injEq] at hH
        obtain ⟨⟨_, hcctx⟩, _⟩ := hH
        subst hcctx
        have ht := create_ride_booking_success env
          { ctx with phone_number := some (phoneOf user_input) }
          (by rw [hcr]; exact hsucc)
        exact ⟨ht.1, ht.2.1, ht.2.2⟩
      · simp only [hsucc, Bool.false_eq_true, if_false, Prod.mk.injEq,
          Except.ok.injEq] at hH
        obtain ⟨⟨_, hcctx⟩, _⟩ := hH
        subst hcctx
        exact absurd hc hpre

/-- Claim C2: whenever one turn of the conversation logic moves a session
into `ride_created` from any other state, the resulting session carries
truthy pickup, drop and phone values — no dispatch path reaches
`ride_created` without the booking data. -/
theorem ride_created_entry_requires_data (env : Env) (user_input : String)
    (ctx : SessionContext)
    (hpre : ctx.state ≠ ConversationState.ride_created)
    (hpost : (process_conversation_logic env user_input ctx).snd.fst.state =
      ConversationState.ride_created) :
    truthyLoc (process_conversation_logic env user_input ctx).snd.fst.pickup_location =
        true ∧
      truthyLoc (process_conversation_logic env user_input ctx).snd.fst.drop_location =
        true ∧
      truthyStr (process_conversation_logic env user_input ctx).snd.fst.phone_number =
        true := by
  cases hstate : ctx.state with
  | greeting =>
      have hst : (process_conversation_logic env user_input ctx).snd.fst.state =
          ConversationState.asking_pickup := by
        simp only [process_conversation_logic, process_conversation_logic_with,
          dispatchHandler, conversationHandlers, handle_greeting, hstate]
      rw [hst] at hpost
      exact absurd hpost (by decide)
  | completed =>
      have hst : (process_conversation_logic env user_input ctx).snd.fst.state =
          ConversationState.asking_pickup := by
        simp only [process_conversation_logic, process_conversation_logic_with,
          dispatchHandler, conversationHandlers, handle_greeting, hstate]
      rw [hst] at hpost
      exact absurd hpost (by decide)
  | asking_pickup =>
      cases hr : env.resolveLocation user_input with
      | error e =>
          have hst : (process_conversation_logic env user_input ctx).snd.fst =
              ctx := by
            simp only [process_conversation_logic,
              process_conversation_logic_with, dispatchHandler,
              conversationHandlers, handle_pickup_location, hstate, hr]
          rw [hst] at hpost
          exact absurd hpost hpre
      | ok o =>
          cases o with
          | none =>
              have hst : (process_conversation_logic env user_input ctx).snd.fst =
                  ctx := by
                simp only [process_conversation_logic,
                  process_conversation_logic_with, dispatchHandler,
                  conversationHandlers, handle_pickup_location, hstate, hr]
              rw [hst] at hpost
              exact absurd hpost hpre
          | some loc =>
              have hst : (process_conversation_logic env user_input ctx).snd.fst.state =
                  ConversationState.asking_drop := by
                simp only [process_conversation_logic,
                  process_conversation_logic_with, dispatchHandler,
                  conversationHandlers, handle_pickup_location, hstate, hr]
              rw [hst] at hpost
              exact absurd hpost (by decide)
  | asking_drop =>
      cases hr : env.resolveLocation user_input with
      | error e =>
          have hst : (process_conversation_logic env user_input ctx).snd.fst =
              ctx := by
            simp only [process_conversation_logic,
              process_conversation_logic_with, dispatchHandler,
              conversationHandlers, handle_drop_location, hstate, hr]
          rw [hst] at hpost
          exact absurd hpost hpre
      | ok o =>
          cases o with
          | none =>
              have hst : (process_conversation_logic env user_input ctx).snd.fst =
                  ctx := by
                simp only [process_conversation_logic,
                  process_conversation_logic_with, dispatchHandler,
                  conversationHandlers, handle_drop_location, hstate, hr]
              rw [hst] at hpost
              exact absurd hpost hpre
          | some loc =>
              have hst : (process_conversation_logic env user_input ctx).snd.fst.state =
                  ConversationState.asking_phone := by
                simp only [process_conversation_logic,
                  process_conversation_logic_with, dispatchHandler,
                  conversationHandlers, handle_drop_location, hstate, hr]
              rw [hst] at hpost
              exact absurd hpost (by decide)
  | ride_created => exact absurd hstate hpre
  | asking_phone =>
      rcases hH : handle_phone_number env user_input ctx with ⟨res, cl⟩
      have hout : process_conversation_logic env user_input ctx =
          (match (res, cl) with
           | (.ok (response, ctx2), calls) => (response, ctx2, calls)
           | (.error _, calls) => (errorFallbackResponse, ctx, calls)) := by
        simp only [process_conversation_logic, process_conversation_logic_with,
          dispatchHandler, conversationHandlers, hstate, hH]
        rfl
      cases res with
      | error e =>
          rw [hout] at hpost
          exact absurd hpost hpre
      | ok rc =>
          rcases rc with ⟨r, c⟩
          rw [hout] at hpost ⊢
          exact phone_handler_ride_created env user_input ctx r c cl hH hpre
            hpost
  | confirming_ride =>
      rcases hH : handle_phone_number env user_input ctx with ⟨res, cl⟩
      have hout : process_conversation_logic env user_input ctx =
          (match (res, cl) with
           | (.ok (response, ctx2), calls) => (response, ctx2, calls)
           | (.error _, calls) => (errorFallbackResponse, ctx, calls)) := by
        simp only [process_conversation_logic, process_conversation_logic_with,
          dispatchHandler, conversationHandlers, handle_ride_confirmation,
          hstate, hH]
        rfl
      cases res with
      | error e =>
          rw [hout] at hpost
          exact absurd hpost hpre
      | ok rc =>
          rcases rc with ⟨r, c⟩
          rw [hout] at hpost ⊢
          exact phone_handler_ride_created env user_input ctx r c cl hH hpre
            hpost

/-- Claim C2 witness: the successful concrete booking turn lands in
`ride_created` with pickup, drop and phone all truthy. -/
theorem ride_created_entry_requires_data_witness :
    truthyLoc (process_conversation_logic demoEnvOk "9876543210" demoCtx).snd.fst.pickup_location =
        true ∧
      truthyLoc (process_conversation_logic demoEnvOk "9876543210" demoCtx).snd.fst.drop_location =
        true ∧
      truthyStr (process_conversation_logic demoEnvOk "9876543210" demoCtx).snd.fst.phone_number =
        true :=
  ride_created_entry_requires_data demoEnvOk "9876543210" demoCtx (by decide)
    (by decide)

/-- Claim C6: the booking sub-flow fails fast with the missing-information
error and no provider call whenever any of pickup, drop or phone is falsy;
and when the provider call raises during a ten-digit `asking_phone` turn,
the turn answers the provider error text inside the booking-failure response
and the resulting session state is still `asking_phone`. -/
theorem ride_booking_failure_modes (env : Env) (user_input : String)
    (ctx : SessionContext) :
    ((truthyLoc ctx.pickup_location && truthyLoc ctx.drop_location &&
        truthyStr ctx.phone_number) = false →
      create_ride_booking env ctx =
        ({ success := false,
           error := some "Missing required booking information",
           ride_id := none, ride_details := none }, [])) ∧
    (∀ e, ctx.state = ConversationState.asking_phone →
      10 ≤ (extractDigits user_input).length →
      truthyLoc ctx.pickup_location = true →
      truthyLoc ctx.drop_location = true →
      create_ride env.createRideHttp = .error e →
      process_conversation_logic env user_input ctx =
        ("Sorry, failed to create ride booking: " ++ e ++
            ". Please try again.",
          { ctx with phone_number := some (phoneOf user_input) },
          [ExtCall.createRide]) ∧
      (process_conversation_logic env user_input ctx).snd.fst.state =
        ConversationState.asking_phone) := by
  constructor
  · intro hfalse
    unfold create_ride_booking
    rw [hfalse]
    rfl
  · intro e hstate hge hp hd he
    have hnlt : ¬ (extractDigits user_input).length < 10 := by omega
    have hbk := create_ride_booking_provider_error env
      { ctx with phone_number := some (phoneOf user_input) } e hp hd
      (phoneOf_truthy user_input hge) he
    have hout : process_conversation_logic env user_input ctx =
        ("Sorry, failed to create ride booking: " ++ e ++
            ". Please try again.",
          { ctx with phone_number := some (phoneOf user_input) },
          [ExtCall.createRide]) := by
      unfold process_conversation_logic process_conversation_logic_with
        dispatchHandler conversationHandlers
      rw [hstate]
      show (match handle_phone_number env user_input ctx with
            | (.ok (response, ctx2), calls) => (response, ctx2, calls)
            | (.error _, calls) => (errorFallbackResponse, ctx, calls)) = _
      unfold handle_phone_number
      rw [if_neg hnlt, hbk, hstate]
      rfl
    refine ⟨hout, ?_⟩
    rw [hout]
    exact hstate

/-- Claim C6 witness: against a timing-out provider, the booking sub-flow on
a session missing a phone number fails fast with no provider call, and a
ten-digit `asking_phone` turn surfaces the timeout message and stays in
`asking_phone`. -/
theorem ride_booking_failure_modes_witness :
    (create_ride_booking demoEnvFail demoCtx =
      ({ success := false,
         error := some "Missing required booking information",
         ride_id := none, ride_details := none }, [])) ∧
    (process_conversation_logic demoEnvFail "9876543210" demoCtx =
      ("Sorry, failed to create ride booking: " ++
          "Ride booking API timeout" ++ ". Please try again.",
        { demoCtx with phone_number := some (phoneOf "9876543210") },
        [ExtCall.createRide]) ∧
      (process_conversation_logic demoEnvFail "9876543210" demoCtx).snd.fst.state =
        ConversationState.asking_phone) :=
  ⟨(ride_booking_failure_modes demoEnvFail "9876543210" demoCtx).1 (by decide),
   (ride_booking_failure_modes demoEnvFail "9876543210" demoCtx).2
     "Ride booking API timeout" (by decide) (by decide) (by decide) (by decide)
     rfl⟩

/-- When a cancel/status/driver keyword arrives without a truthy stored ride
id, the post-ride handler answers the fixed menu reminder, leaves the
session unchanged, and issues no provider call. -/
theorem post_ride_no_id_handler (env : Env) (user_input : String)
    (ctx : SessionContext)
    (hid : rideDetailsHasId ctx.ride_details = false)
    (hkw : strContains (strToLower user_input) "cancel" = true ∨
      strContains (strToLower user_input) "status" = true ∨
      strContains (strToLower user_input) "driver" = true) :
    handle_post_ride_actions env user_input ctx =
      (.ok (postRideMenuResponse, ctx), []) := by
  by_cases h1 : (strContains (strToLower user_input) "status" ||
      strContains (strToLower user_input) "driver") = true
  · simp only [handle_post_ride_actions, h1, if_true, hid, Bool.false_eq_true,
      if_false]
  · have h1f : (strContains (strToLower user_input) "status" ||
        strContains (strToLower user_input) "driver") = false := by
      rwa [Bool.not_eq_true] at h1
    by_cases h2 : strContains (strToLower user_input) "cancel" = true
    · simp only [handle_post_ride_actions, h1f, Bool.false_eq_true, if_false,
        h2, if_true, hid]
    · have h2f : strContains (strToLower user_input) "cancel" = false := by
        rwa [Bool.not_eq_true] at h2
      rcases hkw with hk | hk | hk
      · rw [hk] at h2f
        exact absurd h2f (by decide)
      · rw [hk] at h1f
        simp at h1f
      · rw [hk] at h1f
        simp at h1f

/-- Claim C10: in `ride_created`, a cancel (or status/driver) request with
no stored ride id makes no provider call, keeps the session unchanged with
state `ride_created`, and answers the fixed menu reminder; and the
cancel-resets-to-greeting transition happens only when a truthy ride id
exists and the provider cancel call returns success. -/
theorem post_ride_without_id_menu (env : Env) (user_input : String)
    (ctx : SessionContext)
    (hstate : ctx.state = ConversationState.ride_created) :
    (rideDetailsHasId ctx.ride_details = false →
      (strContains (strToLower user_input) "cancel" = true ∨
       strContains (strToLower user_input) "status" = true ∨
       strContains (strToLower user_input) "driver" = true) →
      process_conversation_logic env user_input ctx =
        (postRideMenuResponse, ctx, [])) ∧
    ((process_conversation_logic env user_input ctx).snd.fst.state =
        ConversationState.greeting →
      rideDetailsHasId ctx.ride_details = true ∧
      ∃ cr, cancel_ride env.cancelRideHttp
          ((ctx.ride_details.bind RideDetails.ride_id).getD 0) = .ok cr ∧
        cr.success = true ∧
        (process_conversation_logic env user_input ctx).snd.snd =
          [ExtCall.cancelRide
            ((ctx.ride_details.bind RideDetails.ride_id).getD 0)]) := by
  constructor
  · intro hid hkw
    have hH := post_ride_no_id_handler env user_input ctx hid hkw
    simp only [process_conversation_logic, process_conversation_logic_with,
      dispatchHandler, conversationHandlers, hstate, hH]
  · intro hg
    by_cases h1 : (strContains (strToLower user_input) "status" ||
        strContains (strToLower user_input) "driver") = true
    · have hctx : (process_conversation_logic env user_input ctx).snd.fst =
          ctx := by
        by_cases hid2 : rideDetailsHasId ctx.ride_details = true
        · simp only [process_conversation_logic,
            process_conversation_logic_with, dispatchHandler,
            conversationHandlers, hstate, handle_post_ride_actions, h1,
            if_true, hid2, get_ride_status_success]
        · have hid2f : rideDetailsHasId ctx.ride_details = false := by
            rwa [Bool.not_eq_true] at hid2
          simp only [process_conversation_logic,
            process_conversation_logic_with, dispatchHandler,
            conversationHandlers, hstate, handle_post_ride_actions, h1,
            if_true, hid2f, Bool.false_eq_true, if_false]
      rw [hctx, hstate] at hg
      exact absurd hg (by decide)
    · have h1f : (strContains (strToLower user_input) "status" ||
          strContains (strToLower user_input) "driver") = false := by
        rwa [Bool.not_eq_true] at h1
      by_cases h2 : strContains (strToLower user_input) "cancel" = true
      · by_cases hid2 : rideDetailsHasId ctx.ride_details = true
        · cases hcr : cancel_ride env.cancelRideHttp
              ((ctx.ride_details.bind RideDetails.ride_id).getD 0) with
          | error ce =>
              have hctx : (process_conversation_logic env user_input ctx).snd.fst =
                  ctx := by
                simp only [process_conversation_logic,
                  process_conversation_logic_with, dispatchHandler,
                  conversationHandlers, hstate, handle_post_ride_actions, h1f,
                  Bool.false_eq_true, if_false, h2, if_true, hid2, hcr]
              rw [hctx, hstate] at hg
              exact absurd hg (by decide)
          | ok cr =>
              by_cases hcs : cr.success = true
              · refine ⟨hid2, cr, rfl, hcs, ?_⟩
                simp only [process_conversation_logic,
                  process_conversation_logic_with, dispatchHandler,
                  conversationHandlers, hstate, handle_post_ride_actions, h1f,
                  Bool.false_eq_true, if_false, h2, if_true, hid2, hcr, hcs]
              · have hcsf : cr.success = false := by
                  rwa [Bool.not_eq_true] at hcs
                have hctx : (process_conversation_logic env user_input ctx).snd.fst =
                    ctx := by
                  simp only [process_conversation_logic,
                    process_conversation_logic_with, dispatchHandler,
                    conversationHandlers, hstate, handle_post_ride_actions,
                    h1f, Bool.false_eq_true, if_false, h2, if_true, hid2, hcr,
                    hcsf]
                rw [hctx, hstate] at hg
                exact absurd hg (by decide)
        · have hid2f : rideDetailsHasId ctx.ride_details = false := by
            rwa [Bool.not_eq_true] at hid2
          have hctx : (process_conversation_logic env user_input ctx).snd.fst =
              ctx := by
            simp only [process_conversation_logic,
              process_conversation_logic_with, dispatchHandler,
              conversationHandlers, hstate, handle_post_ride_actions, h1f,
              Bool.false_eq_true, if_false, h2, if_true, hid2f]
          rw [hctx, hstate] at hg
          exact absurd hg (by decide)
      · have h2f : strContains (strToLower user_input) "cancel" = false := by
          rwa [Bool.not_eq_true] at h2
        by_cases h3 : (strContains (strToLower user_input) "new" ||
            strContains (strToLower user_input) "another") = true
        · have hst2 : (process_conversation_logic env user_input ctx).snd.fst.state =
              ConversationState.asking_pickup := by
            simp only [process_conversation_logic,
              process_conversation_logic_with, dispatchHandler,
              conversationHandlers, hstate, handle_post_ride_actions, h1f,
              Bool.false_eq_true, if_false, h2f, h3, if_true]
          rw [hst2] at hg
          exact absurd hg (by decide)
        · have h3f : (strContains (strToLower user_input) "new" ||
              strContains (strToLower user_input) "another") = false := by
            rwa [Bool.not_eq_true] at h3
          have hctx : (process_conversation_logic env user_input ctx).snd.fst =
              ctx := by
            simp only [process_conversation_logic,
              process_conversation_logic_with, dispatchHandler,
              conversationHandlers, hstate, handle_post_ride_actions, h1f,
              Bool.false_eq_true, if_false, h2f, h3f]
          rw [hctx, hstate] at hg
          exact absurd hg (by decide)

/-- Claim C10 witness: with no stored ride id, "cancel my ride" in
`ride_created` answers the menu reminder unchanged; with ride id 42 and a
successful provider cancel, the turn that lands in `greeting` indeed had the
truthy id and a successful cancel call. -/
theorem post_ride_without_id_menu_witness :
    (process_conversation_logic demoEnvOk "cancel my ride" demoRideCtxNoId =
      (postRideMenuResponse, demoRideCtxNoId, [])) ∧
    (rideDetailsHasId demoRideCtx.ride_details = true ∧
      ∃ cr, cancel_ride demoEnvOk.cancelRideHttp
          ((demoRideCtx.ride_details.bind RideDetails.ride_id).getD 0) =
            .ok cr ∧
        cr.success = true ∧
        (process_conversation_logic demoEnvOk "cancel my ride" demoRideCtx).snd.snd =
          [ExtCall.cancelRide
            ((demoRideCtx.ride_details.bind RideDetails.ride_id).getD 0)]) :=
  ⟨(post_ride_without_id_menu demoEnvOk "cancel my ride" demoRideCtxNoId
      rfl).1 (by decide) (.inl (by decide)),
   (post_ride_without_id_menu demoEnvOk "cancel my ride" demoRideCtx rfl).2
     (by decide)⟩

end LafzAI
